import Mathlib

/-!
Shallow embedding of the Guyton-Klinger withdrawal simulator from
`src/app.js` (the same engine appears verbatim in `src/unnamed/part_000`).

The core is `calculateSimulation` (src/app.js lines 107-161): a sequential
loop in which year `i` depends only on the record of year `i-1` (its
`endWorth`, `returnRate` and `actualWithdrawal` fields; the mutable
`lastYearActualWithdrawal` variable is reassigned to `actualWithdrawal` of
the record just pushed, line 158).  We therefore embed the loop as a
structural recursion `yearResult` on the year index, carrying the previous
record, and define the output list as `map` of it over `range`.

Numbers are embedded as rationals (exact arithmetic); division is total
with junk value `0` at a zero denominator, while JavaScript would produce
an infinity - the claims below that touch division either carry a
positivity hypothesis on the denominator or do not depend on the zero
case.  The JavaScript `undefined` for the never-assigned
`plannedRate` field of the year-0 record is embedded as `Option.none`.
Out-of-range list reads (possible only when the data arrays are shorter
than `simulationYears`) are embedded with `List.getD _ _ 0`; all claims
about well-formed inputs stay within range.
-/

namespace GK

/-- Rule tags of the engine.  The source uses string constants
(`初始提領`, `通膨`, `通膨(凍結)`, `保本`, `繁榮`); we embed them as the closed
enumeration Initial, Inflation, InflationFrozen, CapitalPreservation,
Prosperity. -/
inductive Rule where
  | Initial
  | Inflation
  | InflationFrozen
  | CapitalPreservation
  | Prosperity
deriving DecidableEq

/-- One output record (`yearData` object, src/app.js lines 116-155).
`plannedRate` is an `Option` because the year-0 branch of the source never
assigns this property (it is `undefined` in the year-0 record). -/
structure YearData where
  year : ℕ
  startWorth : ℚ
  inflation : ℚ
  plannedWithdrawal : ℚ
  plannedRate : Option ℚ
  rule : Rule
  actualWithdrawal : ℚ
  actualRate : ℚ
  postWithdrawalBalance : ℚ
  returnRate : ℚ
  endWorth : ℚ
deriving DecidableEq

/-- Parameters of `calculateSimulation` (src/app.js line 108).
`simulationYears` is an integer (the JavaScript `parseInt` result); the
loop `for (let i = 0; i < simulationYears; i++)` runs `max 0 years`
times. -/
structure SimParams where
  initialAssets : ℚ
  initialWithdrawalRate : ℚ
  simulationYears : ℤ
  annualReturns : List ℚ
  annualInflations : List ℚ
deriving DecidableEq

/-- Initial value of `lastYearActualWithdrawal` (src/app.js line 110). -/
def initialWithdrawal (p : SimParams) : ℚ :=
  p.initialAssets * (p.initialWithdrawalRate / 100)

/-- Capital-preservation trigger threshold (src/app.js line 112). -/
def lowerGuardrail (p : SimParams) : ℚ :=
  p.initialWithdrawalRate * 1.2

/-- Prosperity trigger threshold (src/app.js line 113). -/
def upperGuardrail (p : SimParams) : ℚ :=
  p.initialWithdrawalRate * 0.8

/-- Inflation adjustment and freeze decision (src/app.js lines 127-138):
given the startWorth of the current year, the previous actual withdrawal,
the previous return and this year inflation, returns the
`plannedWithdrawal` together with the rule tag set by this step
(`通膨(凍結)` or `通膨`). -/
def inflationStep (p : SimParams) (startWorth lastW prevReturn inflation : ℚ) :
    ℚ × Rule :=
  let inflationToApply := min inflation 6.0
  let plannedWithdrawalWithInflation := lastW * (1 + inflationToApply / 100)
  let plannedRateWithInflation := plannedWithdrawalWithInflation / startWorth * 100
  if prevReturn < 0 ∧ plannedRateWithInflation > p.initialWithdrawalRate then
    (lastW, Rule.InflationFrozen)
  else
    (plannedWithdrawalWithInflation, Rule.Inflation)

/-- Guardrail evaluation (src/app.js lines 143-149): given the planned
rate, the planned withdrawal and the rule tag set by the inflation step,
returns the final rule tag and the actual withdrawal. -/
def guardrailStep (p : SimParams) (plannedRate plannedWithdrawal : ℚ)
    (rule : Rule) : Rule × ℚ :=
  if plannedRate > lowerGuardrail p then
    (Rule.CapitalPreservation, plannedWithdrawal * 0.9)
  else if plannedRate < upperGuardrail p then
    (Rule.Prosperity, plannedWithdrawal * 1.1)
  else
    (rule, plannedWithdrawal)

/-- The `i == 0` branch of the loop body plus the common finalization
(src/app.js lines 116-124 and 152-155). -/
def yearZero (p : SimParams) : YearData :=
  let startWorth := p.initialAssets
  let plannedWithdrawal := initialWithdrawal p
  let actualWithdrawal := plannedWithdrawal
  let postWithdrawalBalance := startWorth - actualWithdrawal
  let returnRate := p.annualReturns.getD 0 0
  { year := 0
    startWorth := startWorth
    inflation := 0
    plannedWithdrawal := plannedWithdrawal
    plannedRate := none
    rule := Rule.Initial
    actualWithdrawal := actualWithdrawal
    actualRate := actualWithdrawal / startWorth * 100
    postWithdrawalBalance := postWithdrawalBalance
    returnRate := returnRate
    endWorth := postWithdrawalBalance * (1 + returnRate / 100) }

/-- The `i > 0` branch of the loop body plus the common finalization
(src/app.js lines 126-155), as a function of the previous record `prev`
(`simulationData[i-1]`; note `lastYearActualWithdrawal` equals
`prev.actualWithdrawal` by line 158). -/
def yearSucc (p : SimParams) (i : ℕ) (prev : YearData) : YearData :=
  let startWorth := prev.endWorth
  let inflation := p.annualInflations.getD i 0
  let stepF := inflationStep p startWorth prev.actualWithdrawal prev.returnRate inflation
  let plannedWithdrawal := stepF.1
  let plannedRate := plannedWithdrawal / startWorth * 100
  let stepH := guardrailStep p plannedRate plannedWithdrawal stepF.2
  let actualWithdrawal := stepH.2
  let postWithdrawalBalance := startWorth - actualWithdrawal
  let returnRate := p.annualReturns.getD i 0
  { year := i
    startWorth := startWorth
    inflation := inflation
    plannedWithdrawal := plannedWithdrawal
    plannedRate := some plannedRate
    rule := stepH.1
    actualWithdrawal := actualWithdrawal
    actualRate := actualWithdrawal / startWorth * 100
    postWithdrawalBalance := postWithdrawalBalance
    returnRate := returnRate
    endWorth := postWithdrawalBalance * (1 + returnRate / 100) }

/-- The record produced at loop iteration `i`. -/
def yearResult (p : SimParams) : ℕ → YearData
  | 0 => yearZero p
  | i + 1 => yearSucc p (i + 1) (yearResult p i)

/-- The engine `calculateSimulation` (src/app.js lines 107-161): the
returned `simulationData` array. -/
def calculateSimulation (p : SimParams) : List YearData :=
  (List.range p.simulationYears.toNat).map (yearResult p)

/-- Element access into the output sequence, used to state the claims. -/
def simRec (p : SimParams) (i : ℕ) (h : i < (calculateSimulation p).length) :
    YearData :=
  (calculateSimulation p).get ⟨i, h⟩

/-- Caller-side collection and validation of the annual data
(src/app.js lines 75-85): the parse results of the table inputs are
embedded as `Option ℚ` (`none` is a NaN parse); the loop throws at the
first index whose return or inflation parse is NaN.  The error value is
that index. -/
def collectAnnual (retParse infParse : ℕ → Option ℚ) : ℕ → Except ℕ (List ℚ × List ℚ)
  | 0 => Except.ok ([], [])
  | n + 1 =>
    match collectAnnual retParse infParse n with
    | Except.error j => Except.error j
    | Except.ok (rs, fs) =>
      match retParse n, infParse n with
      | some r, some f => Except.ok (rs ++ [r], fs ++ [f])
      | _, _ => Except.error n

/-- The simulation entry point as invoked by the form handler
(src/app.js lines 64-104, steps 2 and 3): collect and validate the annual
data, then run the engine.  This is the only place any input rejection
happens; `calculateSimulation` itself validates nothing. -/
def runSimulationHandler (initialAssets initialWithdrawalRate : ℚ)
    (simulationYears : ℤ) (retParse infParse : ℕ → Option ℚ) :
    Except ℕ (List YearData) :=
  match collectAnnual retParse infParse simulationYears.toNat with
  | Except.error j => Except.error j
  | Except.ok (rs, fs) =>
    Except.ok (calculateSimulation
      ⟨initialAssets, initialWithdrawalRate, simulationYears, rs, fs⟩)

/-- Scenario-A input: one year, assets 1000000, rate 5, return 10. -/
def pScenarioA : SimParams := ⟨1000000, 5, 1, [10], [0]⟩

/-- Generic three-year input used to witness the per-year claims. -/
def pChain : SimParams := ⟨1000, 4, 3, [10, -3, 5], [0, 2, 3]⟩

/-- Freeze input where the frozen rate stays inside the guardrail band:
year 0 return -5, year 1 inflation 5. -/
def pFreezeKeep : SimParams := ⟨100, 5, 2, [-5, 0], [0, 5]⟩

/-- Freeze input where the frozen rate breaches the capital-preservation
guardrail: year 0 return -20, year 1 inflation 5. -/
def pFreezeCap : SimParams := ⟨100, 5, 2, [-20, 0], [0, 5]⟩

/-- Degenerate input on which the freeze fires with a negative
withdrawal and a negative capped inflation factor: negative initial
assets, year 0 return -200, year 1 inflation -200. -/
def pFreezeProsper : SimParams := ⟨-100, 5, 2, [-200, 0], [0, -200]⟩

theorem calculateSimulation_length (p : SimParams) :
    (calculateSimulation p).length = p.simulationYears.toNat := by
  simp [calculateSimulation]

theorem simRec_eq (p : SimParams) (i : ℕ) (h : i < (calculateSimulation p).length) :
    simRec p i h = yearResult p i := by
  simp [simRec, calculateSimulation]

theorem yearSucc_startWorth (p : SimParams) (i : ℕ) (prev : YearData) :
    (yearSucc p i prev).startWorth = prev.endWorth := rfl

theorem yearSucc_inflation (p : SimParams) (i : ℕ) (prev : YearData) :
    (yearSucc p i prev).inflation = p.annualInflations.getD i 0 := rfl

theorem yearSucc_plannedWithdrawal (p : SimParams) (i : ℕ) (prev : YearData) :
    (yearSucc p i prev).plannedWithdrawal =
      (inflationStep p prev.endWorth prev.actualWithdrawal prev.returnRate
        (p.annualInflations.getD i 0)).1 := rfl

theorem yearSucc_plannedRate (p : SimParams) (i : ℕ) (prev : YearData) :
    (yearSucc p i prev).plannedRate =
      some ((yearSucc p i prev).plannedWithdrawal / prev.endWorth * 100) := rfl

theorem yearSucc_rule (p : SimParams) (i : ℕ) (prev : YearData) :
    (yearSucc p i prev).rule =
      (guardrailStep p ((yearSucc p i prev).plannedWithdrawal / prev.endWorth * 100)
        (yearSucc p i prev).plannedWithdrawal
        (inflationStep p prev.endWorth prev.actualWithdrawal prev.returnRate
          (p.annualInflations.getD i 0)).2).1 := rfl

theorem yearSucc_actualWithdrawal (p : SimParams) (i : ℕ) (prev : YearData) :
    (yearSucc p i prev).actualWithdrawal =
      (guardrailStep p ((yearSucc p i prev).plannedWithdrawal / prev.endWorth * 100)
        (yearSucc p i prev).plannedWithdrawal
        (inflationStep p prev.endWorth prev.actualWithdrawal prev.returnRate
          (p.annualInflations.getD i 0)).2).2 := rfl

theorem inflationStep_freeze (p : SimParams) (sw lw pr infl : ℚ)
    (h : pr < 0 ∧ lw * (1 + min infl 6.0 / 100) / sw * 100 > p.initialWithdrawalRate) :
    inflationStep p sw lw pr infl = (lw, Rule.InflationFrozen) := by
  simp only [inflationStep]
  rw [if_pos h]

theorem inflationStep_noFreeze (p : SimParams) (sw lw pr infl : ℚ)
    (h : ¬(pr < 0 ∧ lw * (1 + min infl 6.0 / 100) / sw * 100 > p.initialWithdrawalRate)) :
    inflationStep p sw lw pr infl = (lw * (1 + min infl 6.0 / 100), Rule.Inflation) := by
  simp only [inflationStep]
  rw [if_neg h]

theorem guardrailStep_high (p : SimParams) (pr pw : ℚ) (r : Rule)
    (h1 : pr > lowerGuardrail p) :
    guardrailStep p pr pw r = (Rule.CapitalPreservation, pw * 0.9) := by
  simp only [guardrailStep]
  rw [if_pos h1]

theorem guardrailStep_low (p : SimParams) (pr pw : ℚ) (r : Rule)
    (h1 : ¬ pr > lowerGuardrail p) (h2 : pr < upperGuardrail p) :
    guardrailStep p pr pw r = (Rule.Prosperity, pw * 1.1) := by
  simp only [guardrailStep]
  rw [if_neg h1, if_pos h2]

theorem guardrailStep_mid (p : SimParams) (pr pw : ℚ) (r : Rule)
    (h1 : ¬ pr > lowerGuardrail p) (h2 : ¬ pr < upperGuardrail p) :
    guardrailStep p pr pw r = (r, pw) := by
  simp only [guardrailStep]
  rw [if_neg h1, if_neg h2]

/-- Case analysis of the guardrail evaluation inside a successor year:
capital preservation is checked first, prosperity second, and the else
branch keeps the rule produced by the inflation step and the planned
withdrawal. -/
theorem yearSucc_guardrail_cases (p : SimParams) (i : ℕ) (prev : YearData) :
    ((yearSucc p i prev).plannedWithdrawal / prev.endWorth * 100 > lowerGuardrail p →
        (yearSucc p i prev).rule = Rule.CapitalPreservation ∧
        (yearSucc p i prev).actualWithdrawal = (yearSucc p i prev).plannedWithdrawal * 0.9) ∧
    (¬ (yearSucc p i prev).plannedWithdrawal / prev.endWorth * 100 > lowerGuardrail p →
      (yearSucc p i prev).plannedWithdrawal / prev.endWorth * 100 < upperGuardrail p →
        (yearSucc p i prev).rule = Rule.Prosperity ∧
        (yearSucc p i prev).actualWithdrawal = (yearSucc p i prev).plannedWithdrawal * 1.1) ∧
    (¬ (yearSucc p i prev).plannedWithdrawal / prev.endWorth * 100 > lowerGuardrail p →
      ¬ (yearSucc p i prev).plannedWithdrawal / prev.endWorth * 100 < upperGuardrail p →
        (yearSucc p i prev).actualWithdrawal = (yearSucc p i prev).plannedWithdrawal ∧
        (yearSucc p i prev).rule =
          (inflationStep p prev.endWorth prev.actualWithdrawal prev.returnRate
            (p.annualInflations.getD i 0)).2) := by
  by_cases h1 : (yearSucc p i prev).plannedWithdrawal / prev.endWorth * 100 > lowerGuardrail p
  · refine ⟨fun _ => ⟨?_, ?_⟩, fun hn => absurd h1 hn, fun hn _ => absurd h1 hn⟩
    · rw [yearSucc_rule, guardrailStep_high _ _ _ _ h1]
    · rw [yearSucc_actualWithdrawal, guardrailStep_high _ _ _ _ h1]
  · by_cases h2 : (yearSucc p i prev).plannedWithdrawal / prev.endWorth * 100 < upperGuardrail p
    · refine ⟨fun hc => absurd hc h1, fun _ _ => ⟨?_, ?_⟩, fun _ hn => absurd h2 hn⟩
      · rw [yearSucc_rule, guardrailStep_low _ _ _ _ h1 h2]
      · rw [yearSucc_actualWithdrawal, guardrailStep_low _ _ _ _ h1 h2]
    · refine ⟨fun hc => absurd hc h1, fun _ hc => absurd hc h2, fun _ _ => ⟨?_, ?_⟩⟩
      · rw [yearSucc_actualWithdrawal, guardrailStep_mid _ _ _ _ h1 h2]
      · rw [yearSucc_rule, guardrailStep_mid _ _ _ _ h1 h2]

/-- Case analysis of the inflation step inside a successor year. -/
theorem yearSucc_inflation_cases (p : SimParams) (i : ℕ) (prev : YearData) :
    (prev.returnRate < 0 ∧
        prev.actualWithdrawal * (1 + min (p.annualInflations.getD i 0) 6.0 / 100) /
          prev.endWorth * 100 > p.initialWithdrawalRate →
        (yearSucc p i prev).plannedWithdrawal = prev.actualWithdrawal ∧
        (inflationStep p prev.endWorth prev.actualWithdrawal prev.returnRate
          (p.annualInflations.getD i 0)).2 = Rule.InflationFrozen) ∧
    (¬ (prev.returnRate < 0 ∧
        prev.actualWithdrawal * (1 + min (p.annualInflations.getD i 0) 6.0 / 100) /
          prev.endWorth * 100 > p.initialWithdrawalRate) →
        (yearSucc p i prev).plannedWithdrawal =
          prev.actualWithdrawal * (1 + min (p.annualInflations.getD i 0) 6.0 / 100) ∧
        (inflationStep p prev.endWorth prev.actualWithdrawal prev.returnRate
          (p.annualInflations.getD i 0)).2 = Rule.Inflation) := by
  constructor
  · intro hc
    have he := inflationStep_freeze p prev.endWorth prev.actualWithdrawal prev.returnRate
      (p.annualInflations.getD i 0) hc
    exact ⟨by rw [yearSucc_plannedWithdrawal, he], by rw [he]⟩
  · intro hc
    have he := inflationStep_noFreeze p prev.endWorth prev.actualWithdrawal prev.returnRate
      (p.annualInflations.getD i 0) hc
    exact ⟨by rw [yearSucc_plannedWithdrawal, he], by rw [he]⟩

/-- When the freeze fires, the planned withdrawal is the previous actual
withdrawal and the final rule and actual withdrawal come from the
guardrail evaluation applied to the frozen values. -/
theorem yearSucc_freeze_fire (p : SimParams) (i : ℕ) (prev : YearData)
    (hc : prev.returnRate < 0 ∧
      prev.actualWithdrawal * (1 + min (p.annualInflations.getD i 0) 6.0 / 100) /
        prev.endWorth * 100 > p.initialWithdrawalRate) :
    (yearSucc p i prev).plannedWithdrawal = prev.actualWithdrawal ∧
    (yearSucc p i prev).rule =
      (guardrailStep p (prev.actualWithdrawal / prev.endWorth * 100)
        prev.actualWithdrawal Rule.InflationFrozen).1 ∧
    (yearSucc p i prev).actualWithdrawal =
      (guardrailStep p (prev.actualWithdrawal / prev.endWorth * 100)
        prev.actualWithdrawal Rule.InflationFrozen).2 := by
  have he := inflationStep_freeze p prev.endWorth prev.actualWithdrawal prev.returnRate
    (p.annualInflations.getD i 0) hc
  have hpw : (yearSucc p i prev).plannedWithdrawal = prev.actualWithdrawal := by
    rw [yearSucc_plannedWithdrawal, he]
  refine ⟨hpw, ?_, ?_⟩
  · rw [yearSucc_rule, hpw, he]
  · rw [yearSucc_actualWithdrawal, hpw, he]

/-- Claim C3: the output sequence is causally chained - the startWorth of
the first result equals initialAssets, and for every later year the
startWorth equals the endWorth of the previous result. -/
theorem claim_C3 (p : SimParams) :
    (∀ h0 : 0 < (calculateSimulation p).length,
        (simRec p 0 h0).startWorth = p.initialAssets) ∧
    (∀ (i : ℕ) (h : i + 1 < (calculateSimulation p).length),
        (simRec p (i + 1) h).startWorth =
          (simRec p i (Nat.lt_of_succ_lt h)).endWorth) := by
  constructor
  · intro h0
    rw [simRec_eq]
    rfl
  · intro i h
    rw [simRec_eq, simRec_eq]
    rfl

/-- Witness for C3 on the concrete three-year input pChain. -/
theorem claim_C3_witness :
    (simRec pChain 0 (by decide)).startWorth = pChain.initialAssets ∧
    (simRec pChain 1 (by decide)).startWorth = (simRec pChain 0 (by decide)).endWorth := by
  exact ⟨(claim_C3 pChain).1 (by decide), (claim_C3 pChain).2 0 (by decide)⟩

/-- Claim C4: for every year, including year 0, the finalization
identities hold: postWithdrawalBalance is startWorth minus
actualWithdrawal, endWorth compounds the balance by the return, and
actualRate is the actual withdrawal as a percentage of startWorth. -/
theorem claim_C4 (p : SimParams) (i : ℕ) (h : i < (calculateSimulation p).length) :
    (simRec p i h).postWithdrawalBalance =
        (simRec p i h).startWorth - (simRec p i h).actualWithdrawal ∧
    (simRec p i h).endWorth =
        (simRec p i h).postWithdrawalBalance * (1 + (simRec p i h).returnRate / 100) ∧
    (simRec p i h).actualRate =
        (simRec p i h).actualWithdrawal / (simRec p i h).startWorth * 100 := by
  rw [simRec_eq]
  cases i with
  | zero => exact ⟨rfl, rfl, rfl⟩
  | succ n => exact ⟨rfl, rfl, rfl⟩

/-- Witness for C4 on the concrete three-year input pChain, year 1. -/
theorem claim_C4_witness :
    (simRec pChain 1 (by decide)).postWithdrawalBalance =
        (simRec pChain 1 (by decide)).startWorth - (simRec pChain 1 (by decide)).actualWithdrawal ∧
    (simRec pChain 1 (by decide)).endWorth =
        (simRec pChain 1 (by decide)).postWithdrawalBalance *
          (1 + (simRec pChain 1 (by decide)).returnRate / 100) ∧
    (simRec pChain 1 (by decide)).actualRate =
        (simRec pChain 1 (by decide)).actualWithdrawal /
          (simRec pChain 1 (by decide)).startWorth * 100 :=
  claim_C4 pChain 1 (by decide)

/-- Claim C6: year 0 is handled specially with no guardrail evaluation -
startWorth is initialAssets, inflationApplied is 0, the rule is Initial,
and planned and actual withdrawals both equal
initialAssets * initialWithdrawalRate / 100; a run with years = 1
produces exactly one result, and its rule is Initial. -/
theorem claim_C6 (p : SimParams) :
    (∀ h0 : 0 < (calculateSimulation p).length,
        (simRec p 0 h0).startWorth = p.initialAssets ∧
        (simRec p 0 h0).inflation = 0 ∧
        (simRec p 0 h0).rule = Rule.Initial ∧
        (simRec p 0 h0).plannedWithdrawal = p.initialAssets * (p.initialWithdrawalRate / 100) ∧
        (simRec p 0 h0).actualWithdrawal = p.initialAssets * (p.initialWithdrawalRate / 100)) ∧
    (p.simulationYears = 1 →
        calculateSimulation p = [yearZero p] ∧ (yearZero p).rule = Rule.Initial) := by
  constructor
  · intro h0
    rw [simRec_eq]
    exact ⟨rfl, rfl, rfl, rfl, rfl⟩
  · intro hy
    refine ⟨?_, rfl⟩
    have h1 : List.range 1 = [0] := rfl
    simp [calculateSimulation, hy, h1, yearResult]

/-- Witness for C6 on the concrete one-year Scenario-A input. -/
theorem claim_C6_witness :
    ((simRec pScenarioA 0 (by decide)).startWorth = pScenarioA.initialAssets ∧
      (simRec pScenarioA 0 (by decide)).inflation = 0 ∧
      (simRec pScenarioA 0 (by decide)).rule = Rule.Initial ∧
      (simRec pScenarioA 0 (by decide)).plannedWithdrawal =
        pScenarioA.initialAssets * (pScenarioA.initialWithdrawalRate / 100) ∧
      (simRec pScenarioA 0 (by decide)).actualWithdrawal =
        pScenarioA.initialAssets * (pScenarioA.initialWithdrawalRate / 100)) ∧
    (calculateSimulation pScenarioA = [yearZero pScenarioA] ∧
      (yearZero pScenarioA).rule = Rule.Initial) :=
  ⟨(claim_C6 pScenarioA).1 (by decide), (claim_C6 pScenarioA).2 rfl⟩

/-- Claim C1: for every year after year 0, the guardrail evaluation after
the inflation adjustment first checks the capital-preservation trigger
(planned rate above lowerGuardrail, which is 1.2 times the initial rate):
the rule becomes CapitalPreservation and the actual withdrawal is exactly
0.9 times the planned withdrawal; otherwise, if the planned rate is below
upperGuardrail (0.8 times the initial rate), the rule becomes Prosperity
and the actual withdrawal is exactly 1.1 times the planned withdrawal;
otherwise the actual withdrawal equals the planned withdrawal and the
rule set by the inflation step is kept.  The single rule field makes the
two guardrail outcomes mutually exclusive. -/
theorem claim_C1 (p : SimParams) (i : ℕ) (h : i + 1 < (calculateSimulation p).length) :
    lowerGuardrail p = p.initialWithdrawalRate * 1.2 ∧
    upperGuardrail p = p.initialWithdrawalRate * 0.8 ∧
    ((simRec p (i+1) h).plannedWithdrawal / (simRec p (i+1) h).startWorth * 100 >
        lowerGuardrail p →
        (simRec p (i+1) h).rule = Rule.CapitalPreservation ∧
        (simRec p (i+1) h).actualWithdrawal = (simRec p (i+1) h).plannedWithdrawal * 0.9) ∧
    (¬ (simRec p (i+1) h).plannedWithdrawal / (simRec p (i+1) h).startWorth * 100 >
        lowerGuardrail p →
      (simRec p (i+1) h).plannedWithdrawal / (simRec p (i+1) h).startWorth * 100 <
        upperGuardrail p →
        (simRec p (i+1) h).rule = Rule.Prosperity ∧
        (simRec p (i+1) h).actualWithdrawal = (simRec p (i+1) h).plannedWithdrawal * 1.1) ∧
    (¬ (simRec p (i+1) h).plannedWithdrawal / (simRec p (i+1) h).startWorth * 100 >
        lowerGuardrail p →
      ¬ (simRec p (i+1) h).plannedWithdrawal / (simRec p (i+1) h).startWorth * 100 <
        upperGuardrail p →
        (simRec p (i+1) h).actualWithdrawal = (simRec p (i+1) h).plannedWithdrawal ∧
        (simRec p (i+1) h).rule =
          (inflationStep p (simRec p (i+1) h).startWorth
            (simRec p i (Nat.lt_of_succ_lt h)).actualWithdrawal
            (simRec p i (Nat.lt_of_succ_lt h)).returnRate
            (simRec p (i+1) h).inflation).2) ∧
    ¬ ((simRec p (i+1) h).rule = Rule.CapitalPreservation ∧
        (simRec p (i+1) h).rule = Rule.Prosperity) := by
  simp only [simRec_eq, yearResult, yearSucc_startWorth, yearSucc_inflation]
  refine ⟨rfl, rfl, (yearSucc_guardrail_cases p (i+1) (yearResult p i)).1,
    (yearSucc_guardrail_cases p (i+1) (yearResult p i)).2.1,
    (yearSucc_guardrail_cases p (i+1) (yearResult p i)).2.2, ?_⟩
  rintro ⟨ha, hb⟩
  rw [ha] at hb
  exact absurd hb (by decide)

/-- Witness for C1 on the concrete input pFreezeCap, whose year 1 takes
the capital-preservation branch. -/
theorem claim_C1_witness :
    (simRec pFreezeCap 1 (by decide)).rule = Rule.CapitalPreservation ∧
    (simRec pFreezeCap 1 (by decide)).actualWithdrawal =
      (simRec pFreezeCap 1 (by decide)).plannedWithdrawal * 0.9 := by
  refine (claim_C1 pFreezeCap 0 (by decide)).2.2.1 ?_
  norm_num [simRec_eq, yearResult, yearSucc, yearZero, inflationStep,
    initialWithdrawal, lowerGuardrail, pFreezeCap]

/-- Claim C2: for every year after year 0, if the previous return was
negative and the inflation-adjusted rate exceeds the fixed initial
withdrawal rate, the planned withdrawal is frozen at the previous actual
withdrawal and the inflation step sets the rule InflationFrozen;
otherwise the planned withdrawal is the inflation-adjusted amount and the
inflation step sets the rule Inflation.  The comparison is against the
fixed initialWithdrawalRate parameter (the guardrail evaluation of C1 may
later override the rule tag, but not the planned withdrawal). -/
theorem claim_C2 (p : SimParams) (i : ℕ) (h : i + 1 < (calculateSimulation p).length) :
    ((simRec p i (Nat.lt_of_succ_lt h)).returnRate < 0 ∧
        (simRec p i (Nat.lt_of_succ_lt h)).actualWithdrawal *
          (1 + min (simRec p (i+1) h).inflation 6.0 / 100) /
          (simRec p (i+1) h).startWorth * 100 > p.initialWithdrawalRate →
        (simRec p (i+1) h).plannedWithdrawal =
          (simRec p i (Nat.lt_of_succ_lt h)).actualWithdrawal ∧
        (inflationStep p (simRec p (i+1) h).startWorth
          (simRec p i (Nat.lt_of_succ_lt h)).actualWithdrawal
          (simRec p i (Nat.lt_of_succ_lt h)).returnRate
          (simRec p (i+1) h).inflation).2 = Rule.InflationFrozen) ∧
    (¬ ((simRec p i (Nat.lt_of_succ_lt h)).returnRate < 0 ∧
        (simRec p i (Nat.lt_of_succ_lt h)).actualWithdrawal *
          (1 + min (simRec p (i+1) h).inflation 6.0 / 100) /
          (simRec p (i+1) h).startWorth * 100 > p.initialWithdrawalRate) →
        (simRec p (i+1) h).plannedWithdrawal =
          (simRec p i (Nat.lt_of_succ_lt h)).actualWithdrawal *
            (1 + min (simRec p (i+1) h).inflation 6.0 / 100) ∧
        (inflationStep p (simRec p (i+1) h).startWorth
          (simRec p i (Nat.lt_of_succ_lt h)).actualWithdrawal
          (simRec p i (Nat.lt_of_succ_lt h)).returnRate
          (simRec p (i+1) h).inflation).2 = Rule.Inflation) := by
  simp only [simRec_eq, yearResult, yearSucc_startWorth, yearSucc_inflation]
  exact yearSucc_inflation_cases p (i+1) (yearResult p i)

/-- Witness for C2 on the concrete input pFreezeKeep, whose year 1 takes
the freeze branch. -/
theorem claim_C2_witness :
    (simRec pFreezeKeep 1 (by decide)).plannedWithdrawal =
      (simRec pFreezeKeep 0 (by decide)).actualWithdrawal ∧
    (inflationStep pFreezeKeep (simRec pFreezeKeep 1 (by decide)).startWorth
      (simRec pFreezeKeep 0 (by decide)).actualWithdrawal
      (simRec pFreezeKeep 0 (by decide)).returnRate
      (simRec pFreezeKeep 1 (by decide)).inflation).2 = Rule.InflationFrozen := by
  refine (claim_C2 pFreezeKeep 0 (by decide)).1 ?_
  constructor
  · norm_num [simRec_eq, yearResult, yearZero, pFreezeKeep]
  · norm_num [simRec_eq, yearResult, yearSucc, yearZero, inflationStep,
      initialWithdrawal, pFreezeKeep]

/-- Claim C5: for every year after year 0, the inflation factor applied
to the previous actual withdrawal is 1 + min(inflationPercent, 6)/100
(or no factor at all when frozen), that factor never exceeds 1.06, and
therefore a nonnegative previous withdrawal is never raised by more than
6 percent by the inflation adjustment. -/
theorem claim_C5 (p : SimParams) (i : ℕ) (h : i + 1 < (calculateSimulation p).length) :
    ((simRec p (i+1) h).plannedWithdrawal =
        (simRec p i (Nat.lt_of_succ_lt h)).actualWithdrawal *
          (1 + min (simRec p (i+1) h).inflation 6.0 / 100) ∨
      (simRec p (i+1) h).plannedWithdrawal =
        (simRec p i (Nat.lt_of_succ_lt h)).actualWithdrawal) ∧
    1 + min (simRec p (i+1) h).inflation 6.0 / 100 ≤ 106 / 100 ∧
    (0 ≤ (simRec p i (Nat.lt_of_succ_lt h)).actualWithdrawal →
      (simRec p (i+1) h).plannedWithdrawal ≤
        (simRec p i (Nat.lt_of_succ_lt h)).actualWithdrawal * (106 / 100)) := by
  simp only [simRec_eq, yearResult, yearSucc_startWorth, yearSucc_inflation]
  have h60 : (6.0 : ℚ) = 6 := by norm_num
  have hmin : min (p.annualInflations.getD (i+1) 0) 6.0 ≤ 6 := by
    rw [h60]
    exact min_le_right _ _
  have hfle : 1 + min (p.annualInflations.getD (i+1) 0) 6.0 / 100 ≤ 106 / 100 := by
    linarith
  by_cases hc : (yearResult p i).returnRate < 0 ∧
      (yearResult p i).actualWithdrawal *
        (1 + min (p.annualInflations.getD (i+1) 0) 6.0 / 100) /
        (yearResult p i).endWorth * 100 > p.initialWithdrawalRate
  · obtain ⟨hpw, -⟩ := (yearSucc_inflation_cases p (i+1) (yearResult p i)).1 hc
    refine ⟨Or.inr hpw, hfle, fun ha => ?_⟩
    rw [hpw]
    linarith
  · obtain ⟨hpw, -⟩ := (yearSucc_inflation_cases p (i+1) (yearResult p i)).2 hc
    refine ⟨Or.inl hpw, hfle, fun ha => ?_⟩
    rw [hpw]
    exact mul_le_mul_of_nonneg_left hfle ha

/-- Witness for C5 on the concrete three-year input pChain, year 1. -/
theorem claim_C5_witness :
    ((simRec pChain 1 (by decide)).plannedWithdrawal =
        (simRec pChain 0 (by decide)).actualWithdrawal *
          (1 + min (simRec pChain 1 (by decide)).inflation 6.0 / 100) ∨
      (simRec pChain 1 (by decide)).plannedWithdrawal =
        (simRec pChain 0 (by decide)).actualWithdrawal) ∧
    1 + min (simRec pChain 1 (by decide)).inflation 6.0 / 100 ≤ 106 / 100 ∧
    (0 ≤ (simRec pChain 0 (by decide)).actualWithdrawal →
      (simRec pChain 1 (by decide)).plannedWithdrawal ≤
        (simRec pChain 0 (by decide)).actualWithdrawal * (106 / 100)) :=
  claim_C5 pChain 0 (by decide)

/-- Arithmetic core of the freeze-versus-prosperity interaction: when the
inflation-adjusted rate exceeds a positive initial rate over a positive
startWorth, and the capped inflation factor is positive and at most 1.06,
the frozen planned rate stays strictly above 0.8 times the initial rate. -/
theorem freezeRate_above_upper (r s a f : ℚ) (hr : 0 < r) (hs : 0 < s)
    (hf : 0 < f) (hf6 : f ≤ 106 / 100)
    (hfreeze : r * s < a * f * 100) :
    r * 0.8 * s < a * 100 := by
  have hrs : 0 < r * s := mul_pos hr hs
  have ha : 0 < a := by nlinarith
  have h2 : a * f ≤ a * (106 / 100) := mul_le_mul_of_nonneg_left hf6 ha.le
  nlinarith

/-- Claim C9 counterexample: on the Scenario-A input the single year-0
record does not carry a plannedRate value at all (the year-0 branch of
the source never assigns the property; it is undefined). -/
theorem claim_C9_cex :
    (calculateSimulation pScenarioA).map (fun d => d.plannedRate) = [none] := rfl

/-- Claim C9 as amended: every record for a year after year 0 carries
plannedRate = plannedWithdrawal / startWorth * 100, while the year-0
record carries no plannedRate value (the presenter displays it as 0). -/
theorem claim_C9_amended (p : SimParams) :
    (∀ (i : ℕ) (h : i + 1 < (calculateSimulation p).length),
        (simRec p (i+1) h).plannedRate =
          some ((simRec p (i+1) h).plannedWithdrawal /
            (simRec p (i+1) h).startWorth * 100)) ∧
    (∀ h0 : 0 < (calculateSimulation p).length,
        (simRec p 0 h0).plannedRate = none) := by
  constructor
  · intro i h
    simp only [simRec_eq, yearResult, yearSucc_startWorth]
    exact yearSucc_plannedRate p (i+1) (yearResult p i)
  · intro h0
    rw [simRec_eq]
    rfl

/-- Witness for the amended C9 on the concrete three-year input pChain. -/
theorem claim_C9_amended_witness :
    (simRec pChain 1 (by decide)).plannedRate =
      some ((simRec pChain 1 (by decide)).plannedWithdrawal /
        (simRec pChain 1 (by decide)).startWorth * 100) ∧
    (simRec pChain 0 (by decide)).plannedRate = none :=
  ⟨(claim_C9_amended pChain).1 0 (by decide), (claim_C9_amended pChain).2 (by decide)⟩

/-- Claim C7 counterexample: called with years = 0 (which is smaller
than 1), the simulation does not fail - it runs the engine and returns
an empty output sequence. -/
theorem claim_C7_cex :
    runSimulationHandler 1000000 5 0 (fun _ => some 7) (fun _ => some 2) =
      Except.ok [] := rfl

/-- Claim C7 as amended: the engine itself performs no InvalidInput
validation - with years below 1 calculateSimulation returns the empty
output sequence instead of failing, and the only rejection is in the
caller, which throws before invoking the engine when any parsed annual
value within the requested years is NaN; when the collection succeeds
the handler runs the engine unconditionally. -/
theorem claim_C7_amended :
    (∀ p : SimParams, p.simulationYears ≤ 0 → calculateSimulation p = []) ∧
    (∀ (retParse infParse : ℕ → Option ℚ) (n i : ℕ), i < n →
        retParse i = none ∨ infParse i = none →
        ∃ j, collectAnnual retParse infParse n = Except.error j) ∧
    (∀ (a w : ℚ) (y : ℤ) (retParse infParse : ℕ → Option ℚ) (rs fs : List ℚ),
        collectAnnual retParse infParse y.toNat = Except.ok (rs, fs) →
        runSimulationHandler a w y retParse infParse =
          Except.ok (calculateSimulation ⟨a, w, y, rs, fs⟩)) := by
  refine ⟨?_, ?_, ?_⟩
  · intro p hy
    simp [calculateSimulation, Int.toNat_of_nonpos hy]
  · intro retParse infParse n
    induction n with
    | zero => intro i hi; exact absurd hi (Nat.not_lt_zero i)
    | succ m ih =>
      intro i hi hnone
      by_cases him : i < m
      · obtain ⟨j, hj⟩ := ih i him hnone
        exact ⟨j, by simp [collectAnnual, hj]⟩
      · have hieq : i = m := by omega
        subst hieq
        cases hcm : collectAnnual retParse infParse i with
        | error j => exact ⟨j, by simp [collectAnnual, hcm]⟩
        | ok v =>
          obtain ⟨rs, fs⟩ := v
          rcases hnone with hnr | hnf
          · exact ⟨i, by simp [collectAnnual, hcm, hnr]⟩
          · cases hr : retParse i with
            | none => exact ⟨i, by simp [collectAnnual, hcm, hr]⟩
            | some q => exact ⟨i, by simp [collectAnnual, hcm, hr, hnf]⟩
  · intro a w y retParse infParse rs fs hok
    simp [runSimulationHandler, hok]

/-- Witness for the amended C7: a years = 0 run yields the empty
sequence, and a NaN return parse at index 0 makes the collection fail. -/
theorem claim_C7_amended_witness :
    calculateSimulation ⟨50, 5, 0, [], []⟩ = [] ∧
    (∃ j, collectAnnual (fun _ => none) (fun _ => some 2) 1 = Except.error j) :=
  ⟨claim_C7_amended.1 ⟨50, 5, 0, [], []⟩ (by norm_num),
    claim_C7_amended.2.1 (fun _ => none) (fun _ => some 2) 1 0 (by norm_num) (Or.inl rfl)⟩

/-- Claim C8 counterexample: on pFreezeCap (year 0 return -20, year 1
inflation 5) the freeze premises all hold at year 1, yet the final rule
is CapitalPreservation, not InflationFrozen, and the actual withdrawal
is cut rather than kept, because the frozen planned rate breaches the
capital-preservation guardrail. -/
theorem claim_C8_cex :
    (simRec pFreezeCap 0 (by decide)).returnRate < 0 ∧
    (simRec pFreezeCap 1 (by decide)).inflation = 5 ∧
    (simRec pFreezeCap 0 (by decide)).actualWithdrawal *
        (1 + min (simRec pFreezeCap 1 (by decide)).inflation 6.0 / 100) /
        (simRec pFreezeCap 1 (by decide)).startWorth * 100 >
      pFreezeCap.initialWithdrawalRate ∧
    (simRec pFreezeCap 1 (by decide)).rule = Rule.CapitalPreservation ∧
    (simRec pFreezeCap 1 (by decide)).actualWithdrawal ≠
      (simRec pFreezeCap 0 (by decide)).actualWithdrawal := by
  norm_num [simRec_eq, yearResult, yearSucc, yearZero, inflationStep, guardrailStep,
    initialWithdrawal, lowerGuardrail, upperGuardrail, pFreezeCap]

/-- Claim C8 as amended: with a negative previous return, year-1
inflation 5 and an inflation-adjusted rate above the initial rate, the
rule is InflationFrozen and the actual withdrawal is kept, provided the
frozen planned rate stays inside the guardrail band (at most
lowerGuardrail and at least upperGuardrail); otherwise the guardrail
evaluation overrides the frozen outcome. -/
theorem claim_C8_amended (p : SimParams) (i : ℕ)
    (h : i + 1 < (calculateSimulation p).length)
    (hneg : (simRec p i (Nat.lt_of_succ_lt h)).returnRate < 0)
    (hinfl : (simRec p (i+1) h).inflation = 5)
    (hfr : (simRec p i (Nat.lt_of_succ_lt h)).actualWithdrawal *
        (1 + min (simRec p (i+1) h).inflation 6.0 / 100) /
        (simRec p (i+1) h).startWorth * 100 > p.initialWithdrawalRate)
    (hlow : (simRec p i (Nat.lt_of_succ_lt h)).actualWithdrawal /
        (simRec p (i+1) h).startWorth * 100 ≤ lowerGuardrail p)
    (hup : upperGuardrail p ≤ (simRec p i (Nat.lt_of_succ_lt h)).actualWithdrawal /
        (simRec p (i+1) h).startWorth * 100) :
    (simRec p (i+1) h).rule = Rule.InflationFrozen ∧
    (simRec p (i+1) h).actualWithdrawal =
      (simRec p i (Nat.lt_of_succ_lt h)).actualWithdrawal := by
  simp only [simRec_eq, yearResult, yearSucc_startWorth, yearSucc_inflation] at *
  obtain ⟨hpw, hrule, hact⟩ := yearSucc_freeze_fire p (i+1) (yearResult p i) ⟨hneg, hfr⟩
  rw [hrule, hact, guardrailStep_mid _ _ _ _ (not_lt.mpr hlow) (not_lt.mpr hup)]
  exact ⟨rfl, rfl⟩

/-- Witness for the amended C8 on pFreezeKeep, whose frozen planned rate
stays inside the guardrail band. -/
theorem claim_C8_amended_witness :
    (simRec pFreezeKeep 1 (by decide)).rule = Rule.InflationFrozen ∧
    (simRec pFreezeKeep 1 (by decide)).actualWithdrawal =
      (simRec pFreezeKeep 0 (by decide)).actualWithdrawal := by
  refine claim_C8_amended pFreezeKeep 0 (by decide) ?_ ?_ ?_ ?_ ?_
  · norm_num [simRec_eq, yearResult, yearZero, pFreezeKeep]
  · norm_num [simRec_eq, yearResult, yearSucc, pFreezeKeep]
  · norm_num [simRec_eq, yearResult, yearSucc, yearZero, inflationStep,
      initialWithdrawal, pFreezeKeep]
  · norm_num [simRec_eq, yearResult, yearSucc, yearZero, inflationStep,
      initialWithdrawal, lowerGuardrail, pFreezeKeep]
  · norm_num [simRec_eq, yearResult, yearSucc, yearZero, inflationStep,
      initialWithdrawal, upperGuardrail, pFreezeKeep]

/-- Claim C10 counterexample: on pFreezeProsper the freeze condition
holds at year 1 with a positive initial rate and positive startWorth,
yet the final rule is Prosperity - the capped inflation factor is
negative (inflation -200), so the frozen planned rate falls below the
prosperity guardrail. -/
theorem claim_C10_cex :
    0 < pFreezeProsper.initialWithdrawalRate ∧
    0 < (simRec pFreezeProsper 1 (by decide)).startWorth ∧
    (simRec pFreezeProsper 0 (by decide)).returnRate < 0 ∧
    (simRec pFreezeProsper 0 (by decide)).actualWithdrawal *
        (1 + min (simRec pFreezeProsper 1 (by decide)).inflation 6.0 / 100) /
        (simRec pFreezeProsper 1 (by decide)).startWorth * 100 >
      pFreezeProsper.initialWithdrawalRate ∧
    (simRec pFreezeProsper 1 (by decide)).rule = Rule.Prosperity := by
  norm_num [simRec_eq, yearResult, yearSucc, yearZero, inflationStep, guardrailStep,
    initialWithdrawal, lowerGuardrail, upperGuardrail, pFreezeProsper]

/-- Claim C10 as amended: in a freeze year with positive initial rate
and positive startWorth, and additionally a positive capped inflation
factor (inflation above -100), the frozen planned rate is at least the
prosperity guardrail, so the final rule is InflationFrozen or
CapitalPreservation, never Prosperity. -/
theorem claim_C10_amended (p : SimParams) (i : ℕ)
    (h : i + 1 < (calculateSimulation p).length)
    (hr : 0 < p.initialWithdrawalRate)
    (hs : 0 < (simRec p (i+1) h).startWorth)
    (hfpos : 0 < 1 + min (simRec p (i+1) h).inflation 6.0 / 100)
    (hneg : (simRec p i (Nat.lt_of_succ_lt h)).returnRate < 0)
    (hfr : (simRec p i (Nat.lt_of_succ_lt h)).actualWithdrawal *
        (1 + min (simRec p (i+1) h).inflation 6.0 / 100) /
        (simRec p (i+1) h).startWorth * 100 > p.initialWithdrawalRate) :
    upperGuardrail p ≤ (simRec p i (Nat.lt_of_succ_lt h)).actualWithdrawal /
        (simRec p (i+1) h).startWorth * 100 ∧
    ((simRec p (i+1) h).rule = Rule.InflationFrozen ∨
      (simRec p (i+1) h).rule = Rule.CapitalPreservation) := by
  simp only [simRec_eq, yearResult, yearSucc_startWorth, yearSucc_inflation] at *
  have hfr0 := hfr
  rw [gt_iff_lt, div_mul_eq_mul_div, lt_div_iff₀ hs] at hfr
  have h60 : (6.0 : ℚ) = 6 := by norm_num
  have hmin : min (p.annualInflations.getD (i+1) 0) 6.0 ≤ 6 := by
    rw [h60]
    exact min_le_right _ _
  have hf6 : 1 + min (p.annualInflations.getD (i+1) 0) 6.0 / 100 ≤ 106 / 100 := by
    linarith
  have hkey := freezeRate_above_upper p.initialWithdrawalRate (yearResult p i).endWorth
    (yearResult p i).actualWithdrawal
    (1 + min (p.annualInflations.getD (i+1) 0) 6.0 / 100) hr hs hfpos hf6 hfr
  have hupper : upperGuardrail p ≤
      (yearResult p i).actualWithdrawal / (yearResult p i).endWorth * 100 := by
    unfold upperGuardrail
    rw [div_mul_eq_mul_div, le_div_iff₀ hs]
    exact le_of_lt hkey
  refine ⟨hupper, ?_⟩
  obtain ⟨hpw, hrule, -⟩ := yearSucc_freeze_fire p (i+1) (yearResult p i) ⟨hneg, hfr0⟩
  rw [hrule]
  by_cases hcp : (yearResult p i).actualWithdrawal / (yearResult p i).endWorth * 100 >
      lowerGuardrail p
  · rw [guardrailStep_high _ _ _ _ hcp]
    exact Or.inr rfl
  · rw [guardrailStep_mid _ _ _ _ hcp (not_lt.mpr hupper)]
    exact Or.inl rfl

/-- Witness for the amended C10 on pFreezeKeep. -/
theorem claim_C10_amended_witness :
    upperGuardrail pFreezeKeep ≤
      (simRec pFreezeKeep 0 (by decide)).actualWithdrawal /
        (simRec pFreezeKeep 1 (by decide)).startWorth * 100 ∧
    ((simRec pFreezeKeep 1 (by decide)).rule = Rule.InflationFrozen ∨
      (simRec pFreezeKeep 1 (by decide)).rule = Rule.CapitalPreservation) := by
  refine claim_C10_amended pFreezeKeep 0 (by decide) ?_ ?_ ?_ ?_ ?_
  · norm_num [pFreezeKeep]
  · norm_num [simRec_eq, yearResult, yearSucc, yearZero, initialWithdrawal, pFreezeKeep]
  · norm_num [simRec_eq, yearResult, yearSucc, yearZero, pFreezeKeep]
  · norm_num [simRec_eq, yearResult, yearZero, pFreezeKeep]
  · norm_num [simRec_eq, yearResult, yearSucc, yearZero, inflationStep,
      initialWithdrawal, pFreezeKeep]

end GK
